import Mathlib

set_option maxHeartbeats 1600000

/-!
Verification development for the `girl` game-controller input library.

Shallow embedding conventions:
* Rust `f64` / `f32` values are modelled as `ℚ` with exact arithmetic; the
  only operations the embedded code performs on them are division by a
  positive constant, absolute value, comparison and (bit-)equality, all of
  which are represented exactly.
* Rust integers (`i16` raw axis samples, `i32` backend counts) are modelled
  as `Int`; unsigned indices as `Nat`.
* Fallible backend calls are modelled as explicit parameters:
  the resolved controller handle is an `Option Unit`
  (`SDL_GameControllerFromInstanceID` returning null ↦ `none`), and the
  per-slot finger query `SDL_GameControllerGetTouchpadFinger` is an oracle
  `Nat → Nat → Option RawFinger` (`none` ↦ nonzero return code).
* The build with the `touchpad` and `sensors` cargo features enabled is
  embedded (the spec documents both components).
-/

namespace Girl

/-- Embeds `map` from `src/crates/girl/src/gamepad/mod.rs`:
`let value = value / max; if value.abs() < threshold { 0. } else { value }`. -/
def map (value threshold max : ℚ) : ℚ :=
  let value := value / max
  if |value| < threshold then 0 else value

/-- Embeds `AXIS_MAX` from `src/crates/girl/src/gamepad/input.rs`
(`SDL_JOYSTICK_AXIS_MAX as f64`, i.e. 32767). -/
def AXIS_MAX : ℚ := 32767

namespace Gamepad

/-- Embeds `Gamepad::STICK_DEADZONE = 0.1` from
`src/crates/girl/src/gamepad/mod.rs`. -/
def STICK_DEADZONE : ℚ := 1 / 10

end Gamepad

/-- Embeds `Stick` from `src/crates/girl/src/gamepad/input.rs`. -/
inductive Stick where
  | Left
  | Right
deriving DecidableEq, Repr

/-- Embeds `Trigger` from `src/crates/girl/src/gamepad/input.rs`. -/
inductive Trigger where
  | Left
  | Right
deriving DecidableEq, Repr

/-- Embeds `sdl2::controller::Axis` (the six game-controller axes). -/
inductive SdlAxis where
  | LeftX
  | LeftY
  | RightX
  | RightY
  | TriggerLeft
  | TriggerRight
deriving DecidableEq, Repr

/-- Embeds `sdl2::controller::Button` (the raw button codes that
`Button::from_sdl` in `src/crates/girl/src/gamepad/input.rs` matches on). -/
inductive SdlButton where
  | A
  | B
  | X
  | Y
  | Back
  | Guide
  | Start
  | LeftStick
  | RightStick
  | LeftShoulder
  | RightShoulder
  | DPadUp
  | DPadDown
  | DPadLeft
  | DPadRight
  | Misc1
  | Paddle1
  | Paddle2
  | Paddle3
  | Paddle4
  | Touchpad
deriving DecidableEq, Repr

/-- Embeds the 21 named flags of the bitflags struct `Button` from
`src/crates/girl/src/gamepad/input.rs`.  The `u32` bitflags value itself is
modelled as a `Nat` bit mask; `Button.bits` gives each flag's constant. -/
inductive Button where
  | A
  | B
  | X
  | Y
  | Back
  | Guide
  | Start
  | LeftStick
  | RightStick
  | LeftShoulder
  | RightShoulder
  | DPadUp
  | DPadDown
  | DPadLeft
  | DPadRight
  | Misc1
  | Paddle1
  | Paddle2
  | Paddle3
  | Paddle4
  | Touchpad
deriving DecidableEq, Repr

/-- Bit position of each `Button` flag (`1 << 0` through `1 << 20` in the
bitflags declaration). -/
def Button.idx : Button → Nat
  | .A => 0
  | .B => 1
  | .X => 2
  | .Y => 3
  | .Back => 4
  | .Guide => 5
  | .Start => 6
  | .LeftStick => 7
  | .RightStick => 8
  | .LeftShoulder => 9
  | .RightShoulder => 10
  | .DPadUp => 11
  | .DPadDown => 12
  | .DPadLeft => 13
  | .DPadRight => 14
  | .Misc1 => 15
  | .Paddle1 => 16
  | .Paddle2 => 17
  | .Paddle3 => 18
  | .Paddle4 => 19
  | .Touchpad => 20

/-- The `u32` constant of a single `Button` flag. -/
def Button.bits (b : Button) : Nat := 2 ^ b.idx

/-- All defined `Button` flags, in declaration order (the order
`bitflags`' iterator visits defined flags). -/
def buttonList : List Button :=
  [.A, .B, .X, .Y, .Back, .Guide, .Start, .LeftStick, .RightStick,
   .LeftShoulder, .RightShoulder, .DPadUp, .DPadDown, .DPadLeft, .DPadRight,
   .Misc1, .Paddle1, .Paddle2, .Paddle3, .Paddle4, .Touchpad]

/-- Embeds `Button::from_sdl` from `src/crates/girl/src/gamepad/input.rs`. -/
def Button.from_sdl : SdlButton → Button
  | .A => .A
  | .B => .B
  | .X => .X
  | .Y => .Y
  | .Back => .Back
  | .Guide => .Guide
  | .Start => .Start
  | .LeftStick => .LeftStick
  | .RightStick => .RightStick
  | .LeftShoulder => .LeftShoulder
  | .RightShoulder => .RightShoulder
  | .DPadUp => .DPadUp
  | .DPadDown => .DPadDown
  | .DPadLeft => .DPadLeft
  | .DPadRight => .DPadRight
  | .Misc1 => .Misc1
  | .Paddle1 => .Paddle1
  | .Paddle2 => .Paddle2
  | .Paddle3 => .Paddle3
  | .Paddle4 => .Paddle4
  | .Touchpad => .Touchpad

/-- Embeds `Gamepad::buttons` from `src/crates/girl/src/gamepad/input.rs`:
`buttons.iter().filter(|b| self.gp.button(b.into_sdl())).collect()`.
The bitflags iterator yields each defined flag contained in the mask;
`pressed` models the backend per-button state read through the
`into_sdl` bijection; `collect` is the union of the surviving flags. -/
def Gamepad.buttons (pressed : Button → Bool) (mask : Nat) : Nat :=
  (buttonList.filter fun b => Nat.testBit mask b.idx && pressed b).foldl
    (fun acc b => acc ||| b.bits) 0

/-- Embeds `Gamepad::buttons_pressed` from
`src/crates/girl/src/gamepad/input.rs`: `self.buttons(buttons) == buttons`. -/
def Gamepad.buttons_pressed (pressed : Button → Bool) (mask : Nat) : Bool :=
  Gamepad.buttons pressed mask == mask

/-- Embeds `Sensor` from `src/crates/girl/src/gamepad/sensors.rs`. -/
inductive Sensor where
  | Unknown
  | Gyroscope
  | LeftGyroscope
  | RightGyroscope
  | Accelerometer
  | LeftAccelerometer
  | RightAccelerometer
deriving DecidableEq, Repr

/-- Embeds `sdl2::sensor::SensorType`. -/
inductive SdlSensorType where
  | Unknown
  | Gyroscope
  | LeftGyroscope
  | RightGyroscope
  | Accelerometer
  | LeftAccelerometer
  | RightAccelerometer
deriving DecidableEq, Repr

/-- Embeds `Sensor::from_sdl` from `src/crates/girl/src/gamepad/sensors.rs`. -/
def Sensor.from_sdl : SdlSensorType → Sensor
  | .Unknown => .Unknown
  | .Gyroscope => .Gyroscope
  | .LeftGyroscope => .LeftGyroscope
  | .RightGyroscope => .RightGyroscope
  | .Accelerometer => .Accelerometer
  | .LeftAccelerometer => .LeftAccelerometer
  | .RightAccelerometer => .RightAccelerometer

/-- Embeds `TouchpadAction` from `src/crates/girl/src/gamepad/touchpad.rs`
(`Released` carries the `#[default]` attribute). -/
inductive TouchpadAction where
  | Touched
  | Released
  | Moved
deriving DecidableEq, Repr

/-- Embeds `TouchpadState` from `src/crates/girl/src/gamepad/touchpad.rs`.
Position `[f32; 2]` is a pair of rationals. -/
structure TouchpadState where
  touchpad : Nat
  finger : Nat
  position : ℚ × ℚ
  pressure : ℚ
  action : TouchpadAction
deriving DecidableEq, Repr

/-- Embeds `TouchpadState::default()`: zero indices and position/pressure,
action `Released` (the `#[default]` variant). -/
def TouchpadState.default : TouchpadState :=
  { touchpad := 0, finger := 0, position := (0, 0), pressure := 0,
    action := .Released }

/-- Embeds `TouchpadEvent` from `src/crates/girl/src/gamepad/touchpad.rs`. -/
structure TouchpadEvent where
  which : Nat
  idx : Nat
  finger : Nat
  position : ℚ × ℚ
  pressure : ℚ
  action : TouchpadAction
deriving DecidableEq, Repr

/-- Embeds `sdl2::event::Event` restricted to what `Event::from_sdl` in
`src/crates/girl/src/event.rs` inspects: payload fields that the translator
reads are kept (timestamps, which are always ignored, are dropped), and
variants the translator discards wholesale are modelled payload-free since
their payloads are never read. -/
inductive SdlEvent where
  | Quit
  | ControllerAxisMotion (which : Nat) (axis : SdlAxis) (value : Int)
  | ControllerButtonDown (which : Nat) (button : SdlButton)
  | ControllerButtonUp (which : Nat) (button : SdlButton)
  | ControllerDeviceAdded (which : Nat)
  | ControllerDeviceRemoved (which : Nat)
  | ControllerDeviceRemapped (which : Nat)
  | ControllerSteamHandleUpdate (which : Nat)
  | ControllerTouchpadDown (which touchpad finger : Nat) (x y pressure : ℚ)
  | ControllerTouchpadMotion (which touchpad finger : Nat) (x y pressure : ℚ)
  | ControllerTouchpadUp (which touchpad finger : Nat) (x y pressure : ℚ)
  | ControllerSensorUpdated (which : Nat) (sensor : SdlSensorType)
      (data : ℚ × ℚ × ℚ)
  | AppTerminating
  | AppLowMemory
  | AppWillEnterBackground
  | AppDidEnterBackground
  | AppWillEnterForeground
  | AppDidEnterForeground
  | Display
  | Window
  | KeyDown
  | KeyUp
  | TextEditing
  | TextInput
  | MouseMotion
  | MouseButtonDown
  | MouseButtonUp
  | MouseWheel
  | JoyAxisMotion
  | JoyBallMotion
  | JoyHatMotion
  | JoyButtonDown
  | JoyButtonUp
  | JoyDeviceAdded
  | JoyDeviceRemoved
  | FingerDown
  | FingerUp
  | FingerMotion
  | DollarGesture
  | DollarRecord
  | MultiGesture
  | ClipboardUpdate
  | DropFile
  | DropText
  | DropBegin
  | DropComplete
  | AudioDeviceAdded
  | AudioDeviceRemoved
  | RenderTargetsReset
  | RenderDeviceReset
  | LocaleChanged
  | User
  | Unknown
deriving Repr

/-- Embeds `TouchpadEvent::from_sdl` from
`src/crates/girl/src/gamepad/touchpad.rs`: the three controller-touchpad
raw events map to a `TouchpadEvent` with actions `Touched` / `Released` /
`Moved`; every other variant maps to `None`. -/
def TouchpadEvent.from_sdl : SdlEvent → Option TouchpadEvent
  | .ControllerTouchpadDown which touchpad finger x y pressure =>
      some { which, idx := touchpad, finger, position := (x, y), pressure,
             action := .Touched }
  | .ControllerTouchpadUp which touchpad finger x y pressure =>
      some { which, idx := touchpad, finger, position := (x, y), pressure,
             action := .Released }
  | .ControllerTouchpadMotion which touchpad finger x y pressure =>
      some { which, idx := touchpad, finger, position := (x, y), pressure,
             action := .Moved }
  | _ => none

/-- Embeds `Event` from `src/crates/girl/src/event.rs` (build with the
`touchpad` and `sensors` features enabled).  The `[f64; 2]` stick offset and
`[f64; 3]` sensor data are modelled as tuples of rationals. -/
inductive Event where
  | Quit
  | ControllerStickMotion (which : Nat) (stick : Stick) (offset : ℚ × ℚ)
  | ControllerTriggerMotion (which : Nat) (trigger : Trigger) (offset : ℚ)
  | ControllerButtonDown (which : Nat) (button : Button)
  | ControllerButtonUp (which : Nat) (button : Button)
  | ControllerDeviceAdded (which : Nat)
  | ControllerDeviceRemoved (which : Nat)
  | ControllerDeviceRemapped (which : Nat)
  | ControllerSteamHandleUpdate (which : Nat)
  | ControllerTouchpad (ev : TouchpadEvent)
  | ControllerSensorUpdated (which : Nat) (sensor : Sensor) (data : ℚ × ℚ × ℚ)
deriving DecidableEq, Repr

/-- Embeds `Event::from_sdl` from `src/crates/girl/src/event.rs`, arm for
arm.  In particular the two stick arms are reproduced verbatim: the
`LeftX | LeftY` arm puts the normalized value in component `[0]` only when
`axis != LeftX`, and the `RightX | RightY` arm tests `axis == SdlAxis::LeftX`
(exactly as the source does, where that comparison can never be true). -/
def Event.from_sdl (event : SdlEvent) : Option Event :=
  match event with
  | .Quit => some .Quit
  | .ControllerAxisMotion which axis value =>
      match axis with
      | .LeftX | .LeftY =>
          some (.ControllerStickMotion which .Left
            (if axis == .LeftX then
              (0, map (value : ℚ) Gamepad.STICK_DEADZONE AXIS_MAX)
            else
              (map (value : ℚ) Gamepad.STICK_DEADZONE AXIS_MAX, 0)))
      | .RightX | .RightY =>
          some (.ControllerStickMotion which .Right
            (if axis == .LeftX then
              (map (value : ℚ) Gamepad.STICK_DEADZONE AXIS_MAX, 0)
            else
              (0, map (value : ℚ) Gamepad.STICK_DEADZONE AXIS_MAX)))
      | .TriggerLeft =>
          some (.ControllerTriggerMotion which .Left
            (map (value : ℚ) 0 AXIS_MAX))
      | .TriggerRight =>
          some (.ControllerTriggerMotion which .Right
            (map (value : ℚ) 0 AXIS_MAX))
  | .ControllerButtonDown which button =>
      some (.ControllerButtonDown which (Button.from_sdl button))
  | .ControllerButtonUp which button =>
      some (.ControllerButtonUp which (Button.from_sdl button))
  | .ControllerDeviceAdded which => some (.ControllerDeviceAdded which)
  | .ControllerDeviceRemoved which => some (.ControllerDeviceRemoved which)
  | .ControllerDeviceRemapped which => some (.ControllerDeviceRemapped which)
  | .ControllerSteamHandleUpdate which =>
      some (.ControllerSteamHandleUpdate which)
  | .ControllerTouchpadDown .. =>
      (TouchpadEvent.from_sdl event).map .ControllerTouchpad
  | .ControllerTouchpadMotion .. =>
      (TouchpadEvent.from_sdl event).map .ControllerTouchpad
  | .ControllerTouchpadUp .. =>
      (TouchpadEvent.from_sdl event).map .ControllerTouchpad
  | .ControllerSensorUpdated which sensor data =>
      some (.ControllerSensorUpdated which (Sensor.from_sdl sensor)
        (map data.1 (1 / 100) 1, map data.2.1 (1 / 100) 1,
         map data.2.2 (1 / 100) 1))
  | _ => none

/-- Embeds the SDL2 constant `SDL_RELEASED` (= 0), cast to `u8` in
`src/crates/girl/src/gamepad/touchpad.rs`. -/
def RELEASED : Nat := 0

/-- Embeds the SDL2 constant `SDL_PRESSED` (= 1), cast to `u8` in
`src/crates/girl/src/gamepad/touchpad.rs`. -/
def PRESSED : Nat := 1

/-- One raw finger sample as written by
`SDL_GameControllerGetTouchpadFinger`: the `state` status byte plus the
position pair and pressure. -/
structure RawFinger where
  state : Nat
  position : ℚ × ℚ
  pressure : ℚ
deriving DecidableEq, Repr

/-- Embeds the raw-state match of `Gamepad::touchpad`
(`match state { RELEASED => Released, PRESSED => Touched, _ =>
unreachable!(..) }`); `none` stands for the `unreachable!` panic. -/
def touchpadRawAction (state : Nat) : Option TouchpadAction :=
  if state = RELEASED then some .Released
  else if state = PRESSED then some .Touched
  else none

/-- Embeds the per-slot loop body of `Gamepad::touchpad` from
`src/crates/girl/src/gamepad/touchpad.rs` (lines 88-158) for the slot
`(tpIdx, fIdx)` with stored previous state `prev`; the raw-state match is
split off as `touchpadRawAction` above.

The argument `raw` is the backend read: `none` models a nonzero return
code from `SDL_GameControllerGetTouchpadFinger` (the `continue` at line
115).  The result is `none` when the `unreachable!` for an unknown state
byte fires (a Rust panic), otherwise `some (ev?, prev')` where `ev?` is the
`TouchpadState` pushed for this slot (or `none` on the suppressing
`continue`s) and `prev'` is the slot's stored state after the iteration. -/
def touchpadSlot (tpIdx fIdx : Nat) (prev : TouchpadState)
    (raw : Option RawFinger) :
    Option (Option TouchpadState × TouchpadState) :=
  match raw with
  | none => some (none, prev)
  | some r =>
    match touchpadRawAction r.state with
    | none => none
    | some action =>
      if action = prev.action then
        if action = .Released then
          some (none, prev)
        else if r.position = prev.position ∧ r.pressure = prev.pressure then
          some (none, prev)
        else
          some (some { touchpad := tpIdx, finger := fIdx,
                       position := r.position, pressure := r.pressure,
                       action := .Moved },
                { prev with action := action, position := r.position,
                            pressure := r.pressure })
      else
        let evAct :=
          if action = .Touched then TouchpadAction.Touched
          else TouchpadAction.Released
        some (some { touchpad := tpIdx, finger := fIdx,
                     position := r.position, pressure := r.pressure,
                     action := evAct },
              { prev with action := action, position := r.position,
                          pressure := r.pressure })

/-- Inner loop of `Gamepad::touchpad`: fold `touchpadSlot` over the finger
slots of touchpad `tpIdx`, the first slot carrying finger index `fIdx`
(the enumeration starts at 0; the extra parameter makes the recursion go
through).  Result `none` propagates a panic; otherwise the events pushed
for this touchpad, in finger order, together with the updated row. -/
def touchpadRow (tpIdx : Nat) (oracle : Nat → Nat → Option RawFinger) :
    Nat → List TouchpadState →
    Option (List TouchpadState × List TouchpadState)
  | _, [] => some ([], [])
  | fIdx, prev :: rest =>
    match touchpadSlot tpIdx fIdx prev (oracle tpIdx fIdx) with
    | none => none
    | some (ev?, prev') =>
      match touchpadRow tpIdx oracle (fIdx + 1) rest with
      | none => none
      | some (evs, rest') => some (ev?.toList ++ evs, prev' :: rest')

/-- Outer loop of `Gamepad::touchpad`: fold `touchpadRow` over the
touchpads, the first row carrying touchpad index `tpIdx` (the enumeration
starts at 0). -/
def touchpadRows (oracle : Nat → Nat → Option RawFinger) :
    Nat → List (List TouchpadState) →
    Option (List TouchpadState × List (List TouchpadState))
  | _, [] => some ([], [])
  | tpIdx, row :: rest =>
    match touchpadRow tpIdx oracle 0 row with
    | none => none
    | some (evs1, row') =>
      match touchpadRows oracle (tpIdx + 1) rest with
      | none => none
      | some (evs2, rest') => some (evs1 ++ evs2, row' :: rest')

/-- Outcome of one `Gamepad::touchpad()` call: `err` is
`Err(Error::SdlError(..))` from the failed handle resolution in
`Gamepad::raw`, `abort` is the `unreachable!` panic on an unknown state
byte (the process aborts, so no value is observable), and `ok` carries the
returned `Vec<TouchpadState>`. -/
inductive TouchpadCallResult where
  | err
  | abort
  | ok (events : List TouchpadState)
deriving DecidableEq, Repr

/-- Embeds `Gamepad::touchpad` from `src/crates/girl/src/gamepad/touchpad.rs`.

State threading: `self.touchpads` is passed in as `tps` and the (possibly
mutated) field is returned alongside the call result.  `handle` models
`self.raw()`: `none` when `SDL_GameControllerFromInstanceID` returns null,
in which case the `?` operator returns early before any slot is examined,
so the stored state comes back unchanged.  In the `abort` case the Rust
process panics and the field is unobservable; the input state is returned
as a placeholder. -/
def Gamepad.touchpad (handle : Option Unit)
    (tps : List (List TouchpadState))
    (oracle : Nat → Nat → Option RawFinger) :
    TouchpadCallResult × List (List TouchpadState) :=
  match handle with
  | none => (.err, tps)
  | some _ =>
    match touchpadRows oracle 0 tps with
    | none => (.abort, tps)
    | some (evs, tps') => (.ok evs, tps')

/-- Embeds `Error` from the crate root as far as the touchpad code uses it
(`Error::SdlError(String)`, the message dropped). -/
inductive GirlError where
  | SdlError
deriving DecidableEq, Repr

/-- Embeds `Gamepad::touchpads_init` from
`src/crates/girl/src/gamepad/touchpad.rs`.  `num_touchpads` models
`SDL_GameControllerGetNumTouchpads`; `fingersAt` models
`SDL_GameControllerGetNumTouchpadFingers` as a function of the queried
touchpad index — the source queries it only at index 0.  Negative counts
are clamped to zero before the `as usize` casts. -/
def Gamepad.touchpads_init (handle : Option Unit) (num_touchpads : Int)
    (fingersAt : Int → Int) :
    Except GirlError (List (List TouchpadState)) :=
  match handle with
  | none => .error .SdlError
  | some _ =>
    let touchpads : Nat :=
      if num_touchpads < 0 then 0 else num_touchpads.toNat
    let fingers : Nat :=
      if fingersAt 0 < 0 then 0 else (fingersAt 0).toNat
    .ok (List.replicate touchpads
      (List.replicate fingers TouchpadState.default))

/-- Iterates the per-slot loop body over a sequence of raw samples for one
fixed `(t, f)` slot, one sample per `touchpad()` poll (the bridge theorems
below show the full call evolves each slot exactly this way).  Returns the
per-poll emitted event options and the final stored state, or `none` if
some poll panics. -/
def slotTrace (t f : Nat) (s : TouchpadState) :
    List RawFinger → Option (List (Option TouchpadState) × TouchpadState)
  | [] => some ([], s)
  | r :: rest =>
    match touchpadSlot t f s (some r) with
    | none => none
    | some (ev?, s') =>
      match slotTrace t f s' rest with
      | none => none
      | some (evl, sN) => some (ev? :: evl, sN)

/-- Spec-side classifier of raw event kinds, following the spec's
enumeration of the recognized set (quit, controller axis / button /
device-lifecycle / steam-handle events, and the touchpad and sensor events
of the compiled-in optional capabilities); compared against
`Event.from_sdl` for the total-discard claim. -/
def SdlEvent.recognizedKind : SdlEvent → Bool
  | .Quit => true
  | .ControllerAxisMotion .. => true
  | .ControllerButtonDown .. => true
  | .ControllerButtonUp .. => true
  | .ControllerDeviceAdded .. => true
  | .ControllerDeviceRemoved .. => true
  | .ControllerDeviceRemapped .. => true
  | .ControllerSteamHandleUpdate .. => true
  | .ControllerTouchpadDown .. => true
  | .ControllerTouchpadMotion .. => true
  | .ControllerTouchpadUp .. => true
  | .ControllerSensorUpdated .. => true
  | _ => false

/-- C6: the axis normalizer is total, and for every `max > 0` divides the
raw sample by `max`, clamping to `0` exactly when the quotient's magnitude
is below the deadzone: with deadzone `0` it returns `r / max` outright, and
with deadzone `d` it returns `0` when `|r / max| < d` and `r / max`
otherwise. -/
theorem map_normalize_spec (r d max : ℚ) (_hmax : 0 < max) :
    map r 0 max = r / max ∧
    (|r / max| < d → map r d max = 0) ∧
    (¬|r / max| < d → map r d max = r / max) := by
  refine ⟨?_, fun h => ?_, fun h => ?_⟩
  · show (if |r / max| < 0 then 0 else r / max) = r / max
    rw [if_neg (not_lt.mpr (abs_nonneg _))]
  · show (if |r / max| < d then 0 else r / max) = 0
    rw [if_pos h]
  · show (if |r / max| < d then 0 else r / max) = r / max
    rw [if_neg h]

/-- Witness for `map_normalize_spec` at `r = 3`, `d = 9/10`, `max = 4`. -/
theorem map_normalize_spec_witness :
    map 3 0 4 = 3 / 4 ∧
    (|(3 : ℚ) / 4| < 9 / 10 → map 3 (9 / 10) 4 = 0) ∧
    (¬|(3 : ℚ) / 4| < 9 / 10 → map 3 (9 / 10) 4 = 3 / 4) :=
  map_normalize_spec 3 (9 / 10) 4 (by norm_num)

/-- C1 (failing input): a raw `LeftX` axis event with value `32767`
(normalized value `1.0`, above the default deadzone `0.1`) is translated to
a `StickMotion` whose offset is `[0.0, 1.0]` — the moved `LeftX` axis lands
in the y component and the paired axis's component holds the value `0.0` in
the x slot, contrary to the claimed `[1.0, 0.0]` layout (the source's
`LeftX | LeftY` arm writes the value into index 1 when `axis == LeftX`). -/
theorem from_sdl_leftX_lands_in_y_component :
    Event.from_sdl (.ControllerAxisMotion 7 .LeftX 32767) =
      some (.ControllerStickMotion 7 .Left (0, 1)) ∧
    (((0 : ℚ), (1 : ℚ)) ≠ ((1 : ℚ), (0 : ℚ))) := by
  constructor
  · norm_num [Event.from_sdl, map, AXIS_MAX, Gamepad.STICK_DEADZONE]
  · decide

/-- C10: with a resolvable handle, `touchpads_init` builds
`max(num_touchpads, 0)` rows, each row of length
`max(fingers reported for touchpad index 0, 0)` — the finger capacity is
taken from the query at index 0 alone, whatever `fingersAt` does
elsewhere — and every slot is the default state: action `Released`,
position `[0.0, 0.0]`, pressure `0.0` (negative counts clamp to zero, no
error). -/
theorem touchpads_init_shape (u : Unit) (n : Int) (fingersAt : Int → Int) :
    Gamepad.touchpads_init (some u) n fingersAt =
      .ok (List.replicate (max n 0).toNat
        (List.replicate (max (fingersAt 0) 0).toNat
          { touchpad := 0, finger := 0, position := (0, 0), pressure := 0,
            action := .Released })) := by
  have clamp : ∀ m : Int, (if m < 0 then 0 else m.toNat) = (max m 0).toNat := by
    intro m
    split
    · rename_i h
      rw [max_eq_right (le_of_lt h)]
      rfl
    · rename_i h
      rw [max_eq_left (not_lt.mp h)]
  unfold Gamepad.touchpads_init
  rw [clamp, clamp]
  rfl

/-- C9: every raw event kind outside the recognized set (window, keyboard,
mouse, joystick, touch-gesture, drag-and-drop, audio-device, clipboard,
render, locale, user, unknown, app-lifecycle, display, text events) is
translated to `none` by `Event.from_sdl`. -/
theorem from_sdl_total_discard
    (e : SdlEvent) (h : e.recognizedKind = false) :
    Event.from_sdl e = none := by
  cases e <;> simp_all [SdlEvent.recognizedKind, Event.from_sdl]

/-- Witness for `from_sdl_total_discard` at the raw `KeyDown` event. -/
theorem from_sdl_total_discard_witness :
    Event.from_sdl .KeyDown = none :=
  from_sdl_total_discard .KeyDown rfl

/-- Helper: a successfully mapped raw state byte is `RELEASED ↦ Released`
or `PRESSED ↦ Touched`; no other action can come out of the raw match. -/
theorem touchpadRawAction_elim {s : Nat} {a : TouchpadAction}
    (h : touchpadRawAction s = some a) :
    (s = RELEASED ∧ a = .Released) ∨ (s = PRESSED ∧ a = .Touched) := by
  unfold touchpadRawAction at h
  split at h
  · simp_all
  · split at h <;> simp_all

/-- Helper: exhaustive description of one successful slot iteration on a
present raw sample — the four branches of the loop body (suppressed
released repeat, suppressed identical touch, synthetic move, verbatim
edge), each recording the emitted event and the updated stored state. -/
theorem touchpadSlot_cases {t f : Nat} {prev : TouchpadState}
    {r : RawFinger} {ev? : Option TouchpadState} {prev' : TouchpadState}
    (h : touchpadSlot t f prev (some r) = some (ev?, prev')) :
    ∃ action, touchpadRawAction r.state = some action ∧
      ((action = prev.action ∧ action = .Released ∧
          ev? = none ∧ prev' = prev) ∨
       (action = prev.action ∧ action = .Touched ∧
          r.position = prev.position ∧ r.pressure = prev.pressure ∧
          ev? = none ∧ prev' = prev) ∨
       (action = prev.action ∧ action = .Touched ∧
          ¬(r.position = prev.position ∧ r.pressure = prev.pressure) ∧
          ev? = some { touchpad := t, finger := f, position := r.position,
                       pressure := r.pressure, action := .Moved } ∧
          prev' = { prev with action := action, position := r.position,
                              pressure := r.pressure }) ∨
       (action ≠ prev.action ∧
          ev? = some { touchpad := t, finger := f, position := r.position,
                       pressure := r.pressure,
                       action := if action = .Touched then .Touched
                                 else .Released } ∧
          prev' = { prev with action := action, position := r.position,
                              pressure := r.pressure })) := by
  simp only [touchpadSlot] at h
  cases hA : touchpadRawAction r.state with
  | none => rw [hA] at h; exact absurd h (by simp)
  | some action =>
    rw [hA] at h
    dsimp only at h
    refine ⟨action, rfl, ?_⟩
    by_cases hpa : action = prev.action
    · rw [if_pos hpa] at h
      rcases touchpadRawAction_elim hA with ⟨_, ha⟩ | ⟨_, ha⟩ <;> subst ha
      · rw [if_pos rfl] at h
        injection h with h
        injection h with h1 h2
        exact Or.inl ⟨hpa, rfl, h1.symm, h2.symm⟩
      · rw [if_neg (by simp)] at h
        by_cases hpp : r.position = prev.position ∧ r.pressure = prev.pressure
        · rw [if_pos hpp] at h
          injection h with h
          injection h with h1 h2
          exact Or.inr (Or.inl ⟨hpa, rfl, hpp.1, hpp.2, h1.symm, h2.symm⟩)
        · rw [if_neg hpp] at h
          injection h with h
          injection h with h1 h2
          exact Or.inr (Or.inr (Or.inl ⟨hpa, rfl, hpp, h1.symm, h2.symm⟩))
    · rw [if_neg hpa] at h
      injection h with h
      injection h with h1 h2
      exact Or.inr (Or.inr (Or.inr ⟨hpa, h1.symm, h2.symm⟩))

/-- Helper: re-running the slot body on the same raw read from the updated
stored state suppresses the event and keeps the state fixed. -/
theorem touchpadSlot_idem {t f : Nat} {prev : TouchpadState}
    {raw : Option RawFinger} {ev? : Option TouchpadState}
    {prev' : TouchpadState}
    (h : touchpadSlot t f prev raw = some (ev?, prev')) :
    touchpadSlot t f prev' raw = some (none, prev') := by
  cases raw with
  | none =>
    simp only [touchpadSlot] at h
    injection h with h
    injection h with h1 h2
    subst h2
    simp [touchpadSlot]
  | some r =>
    obtain ⟨action, hA, hcase⟩ := touchpadSlot_cases h
    rcases hcase with ⟨hpa, ha, _, hp⟩ | ⟨hpa, ha, hpos, hpr, _, hp⟩ |
      ⟨hpa, ha, _, _, hp⟩ | ⟨hpa, _, hp⟩
    · subst hp
      subst ha
      simp [touchpadSlot, hA, ← hpa]
    · subst hp
      subst ha
      simp [touchpadSlot, hA, ← hpa, hpos, hpr]
    · subst hp
      subst ha
      simp [touchpadSlot, hA]
    · subst hp
      rcases touchpadRawAction_elim hA with ⟨_, ha⟩ | ⟨_, ha⟩ <;> subst ha <;>
        simp [touchpadSlot, hA]

/-- Helper: row-level idempotence — re-running the inner finger loop on an
unchanged oracle from the updated row yields no events and the same row. -/
theorem touchpadRow_idem {t : Nat} {oracle : Nat → Nat → Option RawFinger}
    {k : Nat} {row evs row' : List TouchpadState}
    (h : touchpadRow t oracle k row = some (evs, row')) :
    touchpadRow t oracle k row' = some ([], row') := by
  induction row generalizing k evs row' with
  | nil =>
    simp only [touchpadRow] at h
    injection h with h
    injection h with h1 h2
    subst h2
    simp [touchpadRow]
  | cons prev rest ih =>
    simp only [touchpadRow] at h
    cases hs : touchpadSlot t k prev (oracle t k) with
    | none => rw [hs] at h; exact absurd h (by simp)
    | some pr =>
      obtain ⟨ev?, prev'⟩ := pr
      rw [hs] at h
      cases hr : touchpadRow t oracle (k + 1) rest with
      | none => rw [hr] at h; exact absurd h (by simp)
      | some er =>
        obtain ⟨evs2, rest'⟩ := er
        rw [hr] at h
        injection h with h
        injection h with h1 h2
        subst h2
        simp only [touchpadRow]
        rw [touchpadSlot_idem hs, ih hr]
        simp

/-- Helper: outer-loop idempotence over all touchpads. -/
theorem touchpadRows_idem {oracle : Nat → Nat → Option RawFinger}
    {k : Nat} {tps : List (List TouchpadState)} {evs : List TouchpadState}
    {tps' : List (List TouchpadState)}
    (h : touchpadRows oracle k tps = some (evs, tps')) :
    touchpadRows oracle k tps' = some ([], tps') := by
  induction tps generalizing k evs tps' with
  | nil =>
    simp only [touchpadRows] at h
    injection h with h
    injection h with h1 h2
    subst h2
    simp [touchpadRows]
  | cons row rest ih =>
    simp only [touchpadRows] at h
    cases hs : touchpadRow k oracle 0 row with
    | none => rw [hs] at h; exact absurd h (by simp)
    | some pr =>
      obtain ⟨evs1, row'⟩ := pr
      rw [hs] at h
      cases hr : touchpadRows oracle (k + 1) rest with
      | none => rw [hr] at h; exact absurd h (by simp)
      | some er =>
        obtain ⟨evs2, rest'⟩ := er
        rw [hr] at h
        injection h with h
        injection h with h1 h2
        subst h2
        simp only [touchpadRows]
        rw [touchpadRow_idem hs, ih hr]
        simp

/-- C3: touchpad tracker idempotence — if a `touchpad()` call succeeds,
calling again with every raw finger sample unchanged emits the empty event
list (and leaves the stored per-slot state fixed): no duplicate `Touched`,
`Moved` or `Released` event for any slot. -/
theorem touchpad_idempotent {u : Unit} {tps : List (List TouchpadState)}
    {oracle : Nat → Nat → Option RawFinger} {evs : List TouchpadState}
    {tps' : List (List TouchpadState)}
    (h : Gamepad.touchpad (some u) tps oracle = (.ok evs, tps')) :
    Gamepad.touchpad (some u) tps' oracle = (.ok [], tps') := by
  simp only [Gamepad.touchpad] at h ⊢
  cases hr : touchpadRows oracle 0 tps with
  | none => rw [hr] at h; exact absurd h (by simp)
  | some p =>
    obtain ⟨evs1, tps1⟩ := p
    rw [hr] at h
    injection h with h1 h2
    subst h2
    rw [touchpadRows_idem hr]

/-- Witness for `touchpad_idempotent`: a 1×1 slot matrix that has just
recorded a touch at position `(3, 7)`, polled again with the identical
pressed sample, emits nothing. -/
theorem touchpad_idempotent_witness :
    Gamepad.touchpad (some ())
      [[{ touchpad := 0, finger := 0, position := (3, 7),
          pressure := 1, action := .Touched }]]
      (fun _ _ => some { state := 1, position := (3, 7), pressure := 1 }) =
    (.ok [],
      [[{ touchpad := 0, finger := 0, position := (3, 7),
          pressure := 1, action := .Touched }]]) :=
  touchpad_idempotent
    (show Gamepad.touchpad (some ()) [[TouchpadState.default]]
        (fun _ _ => some { state := 1, position := (3, 7), pressure := 1 }) =
      (.ok [{ touchpad := 0, finger := 0, position := (3, 7),
              pressure := 1, action := .Touched }],
       [[{ touchpad := 0, finger := 0, position := (3, 7),
           pressure := 1, action := .Touched }]]) by decide)

/-- Helper: an event pushed by the slot body carries that slot's touchpad
and finger indices. -/
theorem touchpadSlot_event_tags {t f : Nat} {prev : TouchpadState}
    {raw : Option RawFinger} {e : TouchpadState} {prev' : TouchpadState}
    (h : touchpadSlot t f prev raw = some (some e, prev')) :
    e.touchpad = t ∧ e.finger = f := by
  cases raw with
  | none => simp [touchpadSlot] at h
  | some r =>
    obtain ⟨action, hA, hc⟩ := touchpadSlot_cases h
    rcases hc with ⟨_, _, he, _⟩ | ⟨_, _, _, _, he, _⟩ | ⟨_, _, _, he, _⟩ |
      ⟨_, he, _⟩
    · exact absurd he (by simp)
    · exact absurd he (by simp)
    · injection he with he
      subst he
      exact ⟨rfl, rfl⟩
    · injection he with he
      subst he
      exact ⟨rfl, rfl⟩

/-- Helper: every event the inner finger loop emits for touchpad `t`
starting at finger index `k` carries touchpad index `t` and a finger index
in `[k, k + row.length)`. -/
theorem touchpadRow_event_range {t k : Nat}
    {oracle : Nat → Nat → Option RawFinger}
    {row evs row' : List TouchpadState}
    (h : touchpadRow t oracle k row = some (evs, row')) :
    ∀ e ∈ evs, e.touchpad = t ∧ k ≤ e.finger ∧ e.finger < k + row.length := by
  induction row generalizing k evs row' with
  | nil =>
    simp only [touchpadRow] at h
    injection h with h
    injection h with h1 h2
    subst h1
    simp
  | cons prev0 rest ih =>
    simp only [touchpadRow] at h
    cases hs : touchpadSlot t k prev0 (oracle t k) with
    | none => rw [hs] at h; exact absurd h (by simp)
    | some pr =>
      obtain ⟨ev0?, prev'⟩ := pr
      rw [hs] at h
      cases hr : touchpadRow t oracle (k + 1) rest with
      | none => rw [hr] at h; exact absurd h (by simp)
      | some er =>
        obtain ⟨evs2, rest'⟩ := er
        rw [hr] at h
        injection h with h
        injection h with h1 h2
        subst h1
        intro e he
        rw [List.mem_append] at he
        rcases he with he | he
        · cases ev0? with
          | none => simp at he
          | some e0 =>
            simp only [Option.toList_some, List.mem_singleton] at he
            subst he
            obtain ⟨h1, h2⟩ := touchpadSlot_event_tags hs
            refine ⟨h1, le_of_eq h2.symm, ?_⟩
            simp only [List.length_cons]
            omega
        · obtain ⟨h1, h2, h3⟩ := ih hr e he
          refine ⟨h1, by omega, ?_⟩
          simp only [List.length_cons]
          omega

/-- Helper: pointwise description of the inner finger loop — slot `j` of
the row is processed by `touchpadSlot` at finger index `k + j` with that
slot's oracle read, its updated state lands at position `j` of the updated
row, and the events tagged with finger `k + j` are exactly that slot's
contribution. -/
theorem touchpadRow_slot {t k : Nat}
    {oracle : Nat → Nat → Option RawFinger}
    {row evs row' : List TouchpadState}
    (h : touchpadRow t oracle k row = some (evs, row')) :
    ∀ j prev, row[j]? = some prev →
      ∃ ev? prev',
        touchpadSlot t (k + j) prev (oracle t (k + j)) = some (ev?, prev') ∧
        row'[j]? = some prev' ∧
        evs.filter (fun e => e.finger == k + j) = ev?.toList := by
  induction row generalizing k evs row' with
  | nil => intro j prev hj; simp at hj
  | cons prev0 rest ih =>
    intro j prev hj
    simp only [touchpadRow] at h
    cases hs : touchpadSlot t k prev0 (oracle t k) with
    | none => rw [hs] at h; exact absurd h (by simp)
    | some pr =>
      obtain ⟨ev0?, prev0'⟩ := pr
      rw [hs] at h
      cases hr : touchpadRow t oracle (k + 1) rest with
      | none => rw [hr] at h; exact absurd h (by simp)
      | some er =>
        obtain ⟨evs2, rest'⟩ := er
        rw [hr] at h
        injection h with h
        injection h with h1 h2
        subst h1 h2
        cases j with
        | zero =>
          simp only [List.getElem?_cons_zero, Option.some.injEq] at hj
          subst hj
          refine ⟨ev0?, prev0', by simpa using hs, by simp, ?_⟩
          rw [List.filter_append]
          have hrest : evs2.filter (fun e => e.finger == k + 0) = [] := by
            rw [List.filter_eq_nil_iff]
            intro e he
            obtain ⟨-, h2, -⟩ := touchpadRow_event_range hr e he
            simp only [beq_iff_eq]
            omega
          have hhead :
              ev0?.toList.filter (fun e => e.finger == k + 0) =
                ev0?.toList := by
            cases ev0? with
            | none => rfl
            | some e0 =>
              obtain ⟨-, hf⟩ := touchpadSlot_event_tags hs
              simp [hf]
          rw [hhead, hrest, List.append_nil]
        | succ j' =>
          simp only [List.getElem?_cons_succ] at hj
          obtain ⟨ev?, prev', hslot, hrow, hfil⟩ := ih hr j' prev hj
          have hidx : k + (j' + 1) = (k + 1) + j' := by omega
          refine ⟨ev?, prev', by rw [hidx]; exact hslot, by simpa using hrow,
            ?_⟩
          rw [List.filter_append]
          have hhead :
              ev0?.toList.filter (fun e => e.finger == k + (j' + 1)) = [] := by
            cases ev0? with
            | none => rfl
            | some e0 =>
              obtain ⟨-, hf⟩ := touchpadSlot_event_tags hs
              simp only [Option.toList_some, List.filter_cons,
                List.filter_nil, beq_iff_eq, hf]
              rw [if_neg (by omega)]
          rw [hhead, List.nil_append, hidx, hfil]

/-- Helper: every event the outer loop emits starting at touchpad index
`tIdx` carries a touchpad index in `[tIdx, tIdx + tps.length)`. -/
theorem touchpadRows_event_range {tIdx : Nat}
    {oracle : Nat → Nat → Option RawFinger}
    {tps : List (List TouchpadState)} {evs : List TouchpadState}
    {tps' : List (List TouchpadState)}
    (h : touchpadRows oracle tIdx tps = some (evs, tps')) :
    ∀ e ∈ evs, tIdx ≤ e.touchpad ∧ e.touchpad < tIdx + tps.length := by
  induction tps generalizing tIdx evs tps' with
  | nil =>
    simp only [touchpadRows] at h
    injection h with h
    injection h with h1 h2
    subst h1
    simp
  | cons row rest ih =>
    simp only [touchpadRows] at h
    cases hs : touchpadRow tIdx oracle 0 row with
    | none => rw [hs] at h; exact absurd h (by simp)
    | some pr =>
      obtain ⟨evs1, row'⟩ := pr
      rw [hs] at h
      cases hr : touchpadRows oracle (tIdx + 1) rest with
      | none => rw [hr] at h; exact absurd h (by simp)
      | some er =>
        obtain ⟨evs2, rest'⟩ := er
        rw [hr] at h
        injection h with h
        injection h with h1 h2
        subst h1
        intro e he
        rw [List.mem_append] at he
        rcases he with he | he
        · obtain ⟨h1, -, -⟩ := touchpadRow_event_range hs e he
          refine ⟨le_of_eq h1.symm, ?_⟩
          simp only [List.length_cons]
          omega
        · obtain ⟨h1, h2⟩ := ih hr e he
          refine ⟨by omega, ?_⟩
          simp only [List.length_cons]
          omega

/-- Helper: pointwise description of the outer loop — row `i` is processed
by the inner loop at touchpad index `tIdx + i`, its updated row lands at
position `i`, and the events tagged with touchpad `tIdx + i` are exactly
that row's contribution. -/
theorem touchpadRows_row {tIdx : Nat}
    {oracle : Nat → Nat → Option RawFinger}
    {tps : List (List TouchpadState)} {evs : List TouchpadState}
    {tps' : List (List TouchpadState)}
    (h : touchpadRows oracle tIdx tps = some (evs, tps')) :
    ∀ i row, tps[i]? = some row →
      ∃ revs row',
        touchpadRow (tIdx + i) oracle 0 row = some (revs, row') ∧
        tps'[i]? = some row' ∧
        evs.filter (fun e => e.touchpad == tIdx + i) = revs := by
  induction tps generalizing tIdx evs tps' with
  | nil => intro i row hi; simp at hi
  | cons row0 rest ih =>
    intro i row hi
    simp only [touchpadRows] at h
    cases hs : touchpadRow tIdx oracle 0 row0 with
    | none => rw [hs] at h; exact absurd h (by simp)
    | some pr =>
      obtain ⟨evs1, row0'⟩ := pr
      rw [hs] at h
      cases hr : touchpadRows oracle (tIdx + 1) rest with
      | none => rw [hr] at h; exact absurd h (by simp)
      | some er =>
        obtain ⟨evs2, rest'⟩ := er
        rw [hr] at h
        injection h with h
        injection h with h1 h2
        subst h1 h2
        cases i with
        | zero =>
          simp only [List.getElem?_cons_zero, Option.some.injEq] at hi
          subst hi
          refine ⟨evs1, row0', by simpa using hs, by simp, ?_⟩
          rw [List.filter_append]
          have hrest : evs2.filter (fun e => e.touchpad == tIdx + 0) = [] := by
            rw [List.filter_eq_nil_iff]
            intro e he
            obtain ⟨h1, -⟩ := touchpadRows_event_range hr e he
            simp only [beq_iff_eq]
            omega
          have hhead :
              evs1.filter (fun e => e.touchpad == tIdx + 0) = evs1 := by
            rw [List.filter_eq_self]
            intro e he
            obtain ⟨h1, -, -⟩ := touchpadRow_event_range hs e he
            simp only [beq_iff_eq]
            omega
          rw [hhead, hrest, List.append_nil]
        | succ i' =>
          simp only [List.getElem?_cons_succ] at hi
          obtain ⟨revs, row', hrow, hrow', hfil⟩ := ih hr i' row hi
          have hidx : tIdx + (i' + 1) = (tIdx + 1) + i' := by omega
          refine ⟨revs, row', by rw [hidx]; exact hrow, by simpa using hrow',
            ?_⟩
          rw [List.filter_append]
          have hhead :
              evs1.filter (fun e => e.touchpad == tIdx + (i' + 1)) = [] := by
            rw [List.filter_eq_nil_iff]
            intro e he
            obtain ⟨h1, -, -⟩ := touchpadRow_event_range hs e he
            simp only [beq_iff_eq]
            omega
          rw [hhead, List.nil_append, hidx, hfil]

/-- Helper: bridge from a successful full `touchpad()` call to a single
slot — slot `(i, j)` is processed by `touchpadSlot i j` on its oracle
read, its updated state lands at `(i, j)` of the returned matrix, and the
events carrying indices `(i, j)` are exactly that slot's contribution. -/
theorem touchpad_bridge {u : Unit} {tps : List (List TouchpadState)}
    {oracle : Nat → Nat → Option RawFinger} {evs : List TouchpadState}
    {tps' : List (List TouchpadState)} {i j : Nat}
    {row : List TouchpadState} {prev : TouchpadState}
    (h : Gamepad.touchpad (some u) tps oracle = (.ok evs, tps'))
    (hi : tps[i]? = some row) (hj : row[j]? = some prev) :
    ∃ ev? prev',
      touchpadSlot i j prev (oracle i j) = some (ev?, prev') ∧
      (tps'[i]?.bind fun rw => rw[j]?) = some prev' ∧
      evs.filter (fun e => e.touchpad == i && e.finger == j) = ev?.toList := by
  simp only [Gamepad.touchpad] at h
  cases hr : touchpadRows oracle 0 tps with
  | none => rw [hr] at h; exact absurd h (by simp)
  | some p =>
    obtain ⟨evs0, tps0⟩ := p
    rw [hr] at h
    injection h with h1 h2
    injection h1 with h1
    subst h1 h2
    obtain ⟨revs, row', hrow, hrow', hfil⟩ := touchpadRows_row hr i row hi
    simp only [Nat.zero_add] at hrow hfil
    obtain ⟨ev?, prev', hslot, hprev', hfil2⟩ := touchpadRow_slot hrow j prev hj
    simp only [Nat.zero_add] at hslot hfil2
    refine ⟨ev?, prev', hslot, ?_, ?_⟩
    · rw [hrow']
      simpa using hprev'
    · rw [← hfil, List.filter_filter] at hfil2
      rw [← hfil2]
      apply List.filter_congr
      intro e _
      simp [Bool.and_comm]

/-- C2 (counterexample): a slot stored as the default `Released` state,
polled with a successfully read `Released` sample at position `(3, 7)` and
pressure `1`, emits nothing and keeps the OLD stored state: the stored
position `(0, 0)` and pressure `0` differ from the values just read, so
the stored slot state does not equal the sample read during the call. -/
theorem touchpad_stored_state_stale_counterexample :
    Gamepad.touchpad (some ()) [[TouchpadState.default]]
      (fun _ _ => some { state := 0, position := (3, 7), pressure := 1 }) =
      (.ok [], [[TouchpadState.default]]) ∧
    TouchpadState.default.position ≠ ((3 : ℚ), (7 : ℚ)) ∧
    TouchpadState.default.pressure ≠ (1 : ℚ) := by
  refine ⟨by decide, by decide, by decide⟩

/-- C2 (amended): after a successful `touchpad()` call, a slot whose raw
state was successfully read is updated to the read
`(action, position, pressure)` exactly when an event was emitted
for that slot; when the event was suppressed the stored state is left
unchanged — which for a suppressed identical `Touched` repeat still
coincides with the read sample, so only a suppressed repeated `Released`
sample can leave the stored position/pressure differing from the ones just
read. -/
theorem touchpad_stored_state_tracks_emitted {u : Unit}
    {tps : List (List TouchpadState)}
    {oracle : Nat → Nat → Option RawFinger} {evs : List TouchpadState}
    {tps' : List (List TouchpadState)} {i j : Nat}
    {row : List TouchpadState} {prev : TouchpadState} {r : RawFinger}
    (h : Gamepad.touchpad (some u) tps oracle = (.ok evs, tps'))
    (hi : tps[i]? = some row) (hj : row[j]? = some prev)
    (ho : oracle i j = some r) :
    ∃ action prev',
      touchpadRawAction r.state = some action ∧
      (tps'[i]?.bind fun rw => rw[j]?) = some prev' ∧
      (evs.filter (fun e => e.touchpad == i && e.finger == j) ≠ [] →
         prev'.action = action ∧ prev'.position = r.position ∧
         prev'.pressure = r.pressure) ∧
      (evs.filter (fun e => e.touchpad == i && e.finger == j) = [] →
         prev' = prev ∧
         (action = .Touched →
           prev'.action = action ∧ prev'.position = r.position ∧
           prev'.pressure = r.pressure)) := by
  obtain ⟨ev?, prev', hslot, hget, hfil⟩ := touchpad_bridge h hi hj
  rw [ho] at hslot
  obtain ⟨action, hA, hc⟩ := touchpadSlot_cases hslot
  refine ⟨action, prev', hA, hget, ?_, ?_⟩
  · intro hne
    rcases hc with ⟨_, _, he, _⟩ | ⟨_, _, _, _, he, _⟩ |
      ⟨_, ha, _, he, hp⟩ | ⟨_, he, hp⟩
    · rw [he] at hfil; exact absurd hfil hne
    · rw [he] at hfil; exact absurd hfil hne
    · subst hp; exact ⟨rfl, rfl, rfl⟩
    · subst hp; exact ⟨rfl, rfl, rfl⟩
  · intro hemp
    rcases hc with ⟨hpa, ha, he, hp⟩ | ⟨hpa, ha, hpos, hpr, he, hp⟩ |
      ⟨_, _, _, he, _⟩ | ⟨_, he, _⟩
    · subst hp
      refine ⟨rfl, fun hT => absurd (ha.symm.trans hT) (by decide)⟩
    · subst hp
      exact ⟨rfl, fun _ => ⟨hpa.symm, hpos.symm, hpr.symm⟩⟩
    · rw [he] at hfil
      rw [hfil] at hemp
      exact absurd hemp (by simp)
    · rw [he] at hfil
      rw [hfil] at hemp
      exact absurd hemp (by simp)

/-- Witness for `touchpad_stored_state_tracks_emitted`: a default slot
polled with a pressed sample at `(3, 7)` emits a `Touched` event and the
stored state is updated to the read sample. -/
theorem touchpad_stored_state_tracks_emitted_witness :
    ∃ action prev',
      touchpadRawAction (1 : Nat) = some action ∧
      (([[{ touchpad := 0, finger := 0, position := (3, 7), pressure := 1,
            action := .Touched }]] :
          List (List TouchpadState))[0]?.bind fun rw => rw[0]?) =
        some prev' ∧
      (List.filter (fun e => e.touchpad == 0 && e.finger == 0)
          [({ touchpad := 0, finger := 0, position := (3, 7), pressure := 1,
              action := .Touched } : TouchpadState)] ≠ [] →
         prev'.action = action ∧ prev'.position = ((3 : ℚ), (7 : ℚ)) ∧
         prev'.pressure = (1 : ℚ)) ∧
      (List.filter (fun e => e.touchpad == 0 && e.finger == 0)
          [({ touchpad := 0, finger := 0, position := (3, 7), pressure := 1,
              action := .Touched } : TouchpadState)] = [] →
         prev' = TouchpadState.default ∧
         (action = .Touched →
           prev'.action = action ∧ prev'.position = ((3 : ℚ), (7 : ℚ)) ∧
           prev'.pressure = (1 : ℚ))) :=
  touchpad_stored_state_tracks_emitted
    (show Gamepad.touchpad (some ()) [[TouchpadState.default]]
        (fun _ _ => some { state := 1, position := (3, 7), pressure := 1 }) =
      (.ok [{ touchpad := 0, finger := 0, position := (3, 7), pressure := 1,
              action := .Touched }],
       [[{ touchpad := 0, finger := 0, position := (3, 7), pressure := 1,
           action := .Touched }]]) by decide)
    (show ([[TouchpadState.default]] :
        List (List TouchpadState))[0]? = some [TouchpadState.default]
      by decide)
    (show ([TouchpadState.default] :
        List TouchpadState)[0]? = some TouchpadState.default by decide)
    (show (some { state := 1, position := ((3 : ℚ), (7 : ℚ)), pressure := (1 : ℚ) } : Option RawFinger) = some { state := 1, position := (3, 7), pressure := 1 } by decide)

/-- C5: a slot stored as `Touched`, polled again with a pressed sample,
emits exactly one event for that slot, a `Moved` (not a `Touched`)
carrying the new position and pressure, when position or pressure is not
bit-identical to the stored sample — and no event at all when both are
bit-identical. -/
theorem touchpad_move_detection {u : Unit}
    {tps : List (List TouchpadState)}
    {oracle : Nat → Nat → Option RawFinger} {evs : List TouchpadState}
    {tps' : List (List TouchpadState)} {i j : Nat}
    {row : List TouchpadState} {prev : TouchpadState} {r : RawFinger}
    (h : Gamepad.touchpad (some u) tps oracle = (.ok evs, tps'))
    (hi : tps[i]? = some row) (hj : row[j]? = some prev)
    (hprev : prev.action = .Touched)
    (ho : oracle i j = some r) (hs : r.state = PRESSED) :
    (¬(r.position = prev.position ∧ r.pressure = prev.pressure) →
       evs.filter (fun e => e.touchpad == i && e.finger == j) =
         [{ touchpad := i, finger := j, position := r.position,
            pressure := r.pressure, action := .Moved }]) ∧
    ((r.position = prev.position ∧ r.pressure = prev.pressure) →
       evs.filter (fun e => e.touchpad == i && e.finger == j) = []) := by
  obtain ⟨ev?, prev', hslot, hget, hfil⟩ := touchpad_bridge h hi hj
  rw [ho] at hslot
  obtain ⟨action, hA, hc⟩ := touchpadSlot_cases hslot
  have haT : action = .Touched := by
    rcases touchpadRawAction_elim hA with ⟨h1, _⟩ | ⟨_, h2⟩
    · rw [hs] at h1
      exact absurd h1 (by decide)
    · exact h2
  subst haT
  rcases hc with ⟨_, ha, _, _⟩ | ⟨_, _, hpos, hpr, he, _⟩ |
    ⟨_, _, hne, he, _⟩ | ⟨hpa, _, _⟩
  · exact absurd ha (by decide)
  · rw [he] at hfil
    exact ⟨fun hcon => absurd ⟨hpos, hpr⟩ hcon, fun _ => hfil⟩
  · rw [he] at hfil
    exact ⟨fun _ => hfil, fun hcon => absurd hcon hne⟩
  · rw [hprev] at hpa
    exact absurd rfl hpa

/-- Witness for `touchpad_move_detection`: a slot touched at `(0, 0)` with
pressure `1`, polled with a pressed sample at `(3, 7)`, reports exactly
one `Moved` event carrying the new values. -/
theorem touchpad_move_detection_witness :
    (¬(((3 : ℚ), (7 : ℚ)) = ((0 : ℚ), (0 : ℚ)) ∧ (1 : ℚ) = (1 : ℚ)) →
       List.filter (fun e => e.touchpad == 0 && e.finger == 0)
           [({ touchpad := 0, finger := 0, position := (3, 7), pressure := 1,
               action := .Moved } : TouchpadState)] =
         [{ touchpad := 0, finger := 0, position := (3, 7), pressure := 1,
            action := .Moved }]) ∧
    ((((3 : ℚ), (7 : ℚ)) = ((0 : ℚ), (0 : ℚ)) ∧ (1 : ℚ) = (1 : ℚ)) →
       List.filter (fun e => e.touchpad == 0 && e.finger == 0)
           [({ touchpad := 0, finger := 0, position := (3, 7), pressure := 1,
               action := .Moved } : TouchpadState)] = []) :=
  touchpad_move_detection
    (show Gamepad.touchpad (some ())
        [[{ touchpad := 0, finger := 0, position := (0, 0), pressure := 1,
            action := .Touched }]]
        (fun _ _ => some { state := 1, position := (3, 7), pressure := 1 }) =
      (.ok [{ touchpad := 0, finger := 0, position := (3, 7), pressure := 1,
              action := .Moved }],
       [[{ touchpad := 0, finger := 0, position := (3, 7), pressure := 1,
           action := .Touched }]]) by decide)
    (show ([[{ touchpad := 0, finger := 0, position := (0, 0), pressure := 1, action := .Touched }]] : List (List TouchpadState))[0]? = some [{ touchpad := 0, finger := 0, position := (0, 0), pressure := 1, action := .Touched }] by decide)
    (show ([{ touchpad := 0, finger := 0, position := (0, 0), pressure := 1, action := .Touched }] : List TouchpadState)[0]? = some { touchpad := 0, finger := 0, position := (0, 0), pressure := 1, action := .Touched } by decide)
    (show ({ touchpad := 0, finger := 0, position := ((0 : ℚ), (0 : ℚ)), pressure := (1 : ℚ), action := .Touched } : TouchpadState).action = .Touched by decide)
    (show (some { state := 1, position := ((3 : ℚ), (7 : ℚ)), pressure := (1 : ℚ) } : Option RawFinger) = some { state := 1, position := (3, 7), pressure := 1 } by decide)
    (show ({ state := 1, position := ((3 : ℚ), (7 : ℚ)), pressure := (1 : ℚ) } : RawFinger).state = PRESSED by decide)

/-- C8: error handling of `touchpad()` — the call fails exactly when the
backend handle cannot be resolved (the failure is the whole call's result,
with no partial event list and the stored per-finger state unchanged,
since handle resolution precedes every slot read), while a per-finger read
failure merely skips that slot: the call still succeeds, that slot's
stored state is unchanged and it contributes no event. -/
theorem touchpad_error_handling (tps : List (List TouchpadState))
    (oracle : Nat → Nat → Option RawFinger) :
    Gamepad.touchpad none tps oracle = (.err, tps) ∧
    (∀ u : Unit, (Gamepad.touchpad (some u) tps oracle).1 ≠ .err) ∧
    (∀ (u : Unit) (i j : Nat) (row : List TouchpadState)
        (prev : TouchpadState) (evs : List TouchpadState)
        (tps' : List (List TouchpadState)),
       oracle i j = none → tps[i]? = some row → row[j]? = some prev →
       Gamepad.touchpad (some u) tps oracle = (.ok evs, tps') →
       (tps'[i]?.bind fun rw => rw[j]?) = some prev ∧
       evs.filter (fun e => e.touchpad == i && e.finger == j) = []) := by
  refine ⟨rfl, ?_, ?_⟩
  · intro u
    simp only [Gamepad.touchpad]
    cases h : touchpadRows oracle 0 tps with
    | none => simp
    | some p => obtain ⟨a, b⟩ := p; simp
  · intro u i j row prev evs tps' ho hi hj h
    obtain ⟨ev?, prev', hslot, hget, hfil⟩ := touchpad_bridge h hi hj
    rw [ho] at hslot
    simp only [touchpadSlot, Option.some.injEq, Prod.mk.injEq] at hslot
    obtain ⟨h1, h2⟩ := hslot
    subst h2
    rw [← h1] at hfil
    exact ⟨hget, hfil⟩

/-- Witness for `touchpad_error_handling` at a 1×1 matrix whose oracle
fails every read: the handle-failure case returns the error with the state
untouched, and the skipped slot keeps its state and emits nothing. -/
theorem touchpad_error_handling_witness :
    Gamepad.touchpad none [[TouchpadState.default]] (fun _ _ => none) =
      (.err, [[TouchpadState.default]]) ∧
    (([[TouchpadState.default]] :
        List (List TouchpadState))[0]?.bind fun rw => rw[0]?) =
      some TouchpadState.default ∧
    List.filter (fun e => e.touchpad == 0 && e.finger == 0)
      ([] : List TouchpadState) = [] := by
  have happ :=
    (touchpad_error_handling [[TouchpadState.default]] (fun _ _ => none)).2.2
      () 0 0 [TouchpadState.default] TouchpadState.default []
      [[TouchpadState.default]] rfl rfl rfl (by decide)
  exact ⟨(touchpad_error_handling [[TouchpadState.default]]
    (fun _ _ => none)).1, happ.1, happ.2⟩

/-- Helper: a slot whose stored action is `Released` suppresses every
further successfully read `Released` sample, leaving the stored state
untouched for the whole run. -/
theorem slotTrace_released_stays {t f : Nat} {s : TouchpadState}
    (hs : s.action = .Released) :
    ∀ raws : List RawFinger, (∀ r ∈ raws, r.state = RELEASED) →
      slotTrace t f s raws = some (List.replicate raws.length none, s) := by
  intro raws
  induction raws with
  | nil => intro _; simp [slotTrace]
  | cons r rest ih =>
    intro hall
    have hr : r.state = RELEASED := hall r (by simp)
    have hstep : touchpadSlot t f s (some r) = some (none, s) := by
      simp [touchpadSlot, touchpadRawAction, hr, hs]
    have hih := ih (fun x hx => hall x (by simp [hx]))
    simp only [slotTrace, hstep, hih]
    simp [List.replicate_succ]

/-- C4: release-once — over a run of consecutive polls in which the slot's
raw state reads `Released` throughout (and the stored action starts as
`Touched` or `Released`, the only storable values), a `Released` event is
emitted exactly on the first poll and only when the stored action entering
it was `Touched` (the falling edge); every later poll of the run emits
nothing, and the stored action ends `Released`. -/
theorem touchpad_release_once {t f : Nat} {s : TouchpadState}
    {r0 : RawFinger} {rest : List RawFinger}
    (hM : s.action ≠ .Moved) (h0 : r0.state = RELEASED)
    (hrest : ∀ r ∈ rest, r.state = RELEASED) :
    ∃ sN,
      slotTrace t f s (r0 :: rest) =
        some ((if s.action = .Touched then
                 some { touchpad := t, finger := f, position := r0.position,
                        pressure := r0.pressure, action := .Released }
               else none) :: List.replicate rest.length none, sN) ∧
      sN.action = .Released := by
  cases hsa : s.action with
  | Moved => exact absurd hsa hM
  | Released =>
    refine ⟨s, ?_, hsa⟩
    rw [if_neg (show ¬(TouchpadAction.Released = TouchpadAction.Touched)
      by decide)]
    have hall : ∀ r ∈ r0 :: rest, r.state = RELEASED := by
      intro x hx
      rcases List.mem_cons.mp hx with hx | hx
      · subst hx; exact h0
      · exact hrest x hx
    rw [slotTrace_released_stays hsa (r0 :: rest) hall]
    simp [List.replicate_succ]
  | Touched =>
    have hstep : touchpadSlot t f s (some r0) =
        some (some { touchpad := t, finger := f, position := r0.position,
                     pressure := r0.pressure, action := .Released },
              { s with action := .Released, position := r0.position,
                       pressure := r0.pressure }) := by
      simp [touchpadSlot, touchpadRawAction, h0, hsa]
    have htail :
        slotTrace t f { s with action := .Released, position := r0.position, pressure := r0.pressure } rest =
          some (List.replicate rest.length none, { s with action := .Released, position := r0.position, pressure := r0.pressure }) :=
      slotTrace_released_stays rfl rest hrest
    refine ⟨{ s with action := .Released, position := r0.position, pressure := r0.pressure }, ?_, rfl⟩
    rw [if_pos (show TouchpadAction.Touched = TouchpadAction.Touched
      from rfl)]
    simp only [slotTrace, hstep, htail]

/-- Witness for `touchpad_release_once`: a slot touched with pressure `1`,
polled `Released` twice, emits one `Released` event on the first poll and
nothing on the second. -/
theorem touchpad_release_once_witness :
    ∃ sN,
      slotTrace 0 0
          { touchpad := 0, finger := 0, position := (0, 0), pressure := 1,
            action := .Touched }
          [{ state := 0, position := (2, 3), pressure := 0 },
           { state := 0, position := (4, 5), pressure := 0 }] =
        some ([some { touchpad := 0, finger := 0, position := (2, 3),
                      pressure := 0, action := .Released }, none], sN) ∧
      sN.action = .Released :=
  touchpad_release_once (by decide) (by decide) (by decide)

/-- Helper: bit characterization of the or-fold that `collect` performs
over a list of single flags. -/
theorem foldl_or_testBit (l : List Button) (acc : Nat) (i : Nat) :
    (l.foldl (fun a b => a ||| b.bits) acc).testBit i =
      (acc.testBit i || l.any fun b => decide (b.idx = i)) := by
  induction l generalizing acc with
  | nil => simp
  | cons b rest ih =>
    simp only [List.foldl_cons, List.any_cons]
    rw [ih, Nat.testBit_or]
    simp [Button.bits, Nat.testBit_two_pow, Bool.or_assoc]

/-- Helper: every flag is in the defined-flag list. -/
theorem mem_buttonList (b : Button) : b ∈ buttonList := by
  cases b <;> decide

/-- Helper: the 21 flags occupy pairwise distinct bit positions. -/
theorem Button.idx_inj {a b : Button} (h : a.idx = b.idx) : a = b := by
  revert h
  cases a <;> cases b <;> decide

/-- Helper: a bit of the collected `buttons` result is set exactly when
some defined flag at that bit position survives the mask-and-pressed
filter. -/
theorem buttons_testBit (pressed : Button → Bool) (mask : Nat) (i : Nat) :
    (Gamepad.buttons pressed mask).testBit i =
      (buttonList.filter fun b => Nat.testBit mask b.idx && pressed b).any
        (fun b => decide (b.idx = i)) := by
  unfold Gamepad.buttons
  rw [foldl_or_testBit]
  simp

/-- C7: for all flags `A` and `B` and every assignment of pressed states
to the full button set (whatever the buttons outside `{A, B}` do),
`buttons_pressed (A ||| B)` — decided by the comparison
`buttons (A ||| B) == A ||| B` — is true exactly when `A` and `B` are both
individually pressed. -/
theorem buttons_pressed_and (A B : Button) (pressed : Button → Bool) :
    Gamepad.buttons_pressed pressed (Button.bits A ||| Button.bits B) =
      (pressed A && pressed B) := by
  have hiff :
      Gamepad.buttons pressed (Button.bits A ||| Button.bits B) =
        (Button.bits A ||| Button.bits B) ↔
      (pressed A = true ∧ pressed B = true) := by
    constructor
    · intro h
      have key : ∀ C : Button, (Button.bits A ||| Button.bits B).testBit
          C.idx = true → pressed C = true := by
        intro C hC
        have hbit := congrArg (fun n => Nat.testBit n C.idx) h
        simp only at hbit
        rw [buttons_testBit, hC] at hbit
        obtain ⟨b, hbmem, hbi⟩ := List.any_eq_true.mp hbit
        rw [List.mem_filter] at hbmem
        have hb : b = C := Button.idx_inj (by simpa using hbi)
        subst hb
        have hcond := hbmem.2
        rw [Bool.and_eq_true] at hcond
        exact hcond.2
      constructor
      · exact key A (by simp [Button.bits, Nat.testBit_or,
          Nat.testBit_two_pow])
      · exact key B (by simp [Button.bits, Nat.testBit_or,
          Nat.testBit_two_pow])
    · rintro ⟨hA, hB⟩
      apply Nat.eq_of_testBit_eq
      intro i
      rw [buttons_testBit]
      by_cases hi : (Button.bits A ||| Button.bits B).testBit i = true
      · rw [hi]
        have hAB : A.idx = i ∨ B.idx = i := by
          have := hi
          simp only [Button.bits, Nat.testBit_or, Nat.testBit_two_pow] at this
          simpa using this
        apply List.any_eq_true.mpr
        rcases hAB with h | h
        · refine ⟨A, ?_, by simp [h]⟩
          rw [List.mem_filter]
          refine ⟨mem_buttonList A, ?_⟩
          rw [h]
          simp [hi, hA]
        · refine ⟨B, ?_, by simp [h]⟩
          rw [List.mem_filter]
          refine ⟨mem_buttonList B, ?_⟩
          rw [h]
          simp [hi, hB]
      · have hi' : (Button.bits A ||| Button.bits B).testBit i = false := by
          revert hi
          cases (Button.bits A ||| Button.bits B).testBit i <;> simp
        rw [hi']
        rw [Bool.eq_false_iff]
        intro hany
        obtain ⟨b, hbmem, hbi⟩ := List.any_eq_true.mp hany
        rw [List.mem_filter] at hbmem
        have hbidx : b.idx = i := by simpa using hbi
        have hcond := hbmem.2
        rw [Bool.and_eq_true] at hcond
        have hset : (Button.bits A ||| Button.bits B).testBit b.idx = true :=
          hcond.1
        rw [hbidx] at hset
        rw [hset] at hi'
        exact absurd hi' (by simp)
  simp only [Gamepad.buttons_pressed]
  cases hA : pressed A with
  | true =>
    cases hB : pressed B with
    | true =>
      simp only [Bool.and_self]
      rw [beq_iff_eq.mpr (hiff.mpr ⟨hA, hB⟩)]
    | false =>
      simp only [Bool.and_false]
      rw [Bool.eq_false_iff]
      intro hcon
      have := (hiff.mp (beq_iff_eq.mp hcon)).2
      rw [hB] at this
      exact absurd this (by simp)
  | false =>
    simp only [Bool.false_and]
    rw [Bool.eq_false_iff]
    intro hcon
    have := (hiff.mp (beq_iff_eq.mp hcon)).1
    rw [hA] at this
    exact absurd this (by simp)

end Girl
